import Mathlib

/-!
Verification of the AtlasField interpretation engine
(`backend/app/services/analysis.py` and `backend/app/routers/analysis.py`)
against its natural-language specification.

Numeric values are modelled exactly: Python floats become `ℚ` (or `ℝ` where
the source uses fractional powers), `None` becomes `Option`, and Python's
`round(x, n)` (round-half-to-even) becomes `round_half_even`.
-/

set_option maxHeartbeats 1000000

/-! ## Rounding: Python `round` is round-half-to-even (banker's rounding) -/

/-- Round to the nearest integer, ties to the even integer; models Python
`round(x)` on exact values. -/
def round_half_even {α : Type} [LinearOrderedField α] [FloorRing α] (x : α) : ℤ :=
  if x - ⌊x⌋ < 1/2 then ⌊x⌋
  else if 1/2 < x - ⌊x⌋ then ⌊x⌋ + 1
  else if 2 ∣ ⌊x⌋ then ⌊x⌋ else ⌊x⌋ + 1

/-- Models Python `round(x, 1)`. -/
def py_round_1 (x : ℚ) : ℚ := (round_half_even (x * 10) : ℚ) / 10

/-- Models Python `round(x, 2)` on rationals. -/
def py_round_2 (x : ℚ) : ℚ := (round_half_even (x * 100) : ℚ) / 100

/-- Models Python `round(x, 2)` on reals (used where the source computes
fractional powers). -/
noncomputable def py_round_2_real (x : ℝ) : ℝ := (round_half_even (x * 100) : ℝ) / 100

theorem round_half_even_ge {α : Type} [LinearOrderedField α] [FloorRing α] (x : α) :
    ⌊x⌋ ≤ round_half_even x := by
  unfold round_half_even
  split_ifs <;> omega

theorem round_half_even_le {α : Type} [LinearOrderedField α] [FloorRing α] (x : α) :
    round_half_even x ≤ ⌊x⌋ + 1 := by
  unfold round_half_even
  split_ifs <;> omega

theorem round_half_even_mono {α : Type} [LinearOrderedField α] [FloorRing α]
    {x y : α} (h : x ≤ y) : round_half_even x ≤ round_half_even y := by
  by_cases hf : (⌊x⌋ : ℤ) = ⌊y⌋
  · unfold round_half_even
    rw [hf]
    have hfr : x - (⌊y⌋ : α) ≤ y - (⌊y⌋ : α) := by linarith
    split_ifs <;> first | omega | linarith
  · have h1 : ⌊x⌋ < ⌊y⌋ := lt_of_le_of_ne (Int.floor_mono h) hf
    calc round_half_even x ≤ ⌊x⌋ + 1 := round_half_even_le x
      _ ≤ ⌊y⌋ := by omega
      _ ≤ round_half_even y := round_half_even_ge y

theorem py_round_2_real_mono {x y : ℝ} (h : x ≤ y) :
    py_round_2_real x ≤ py_round_2_real y := by
  unfold py_round_2_real
  have := round_half_even_mono (α := ℝ) (x := x * 100) (y := y * 100) (by linarith)
  have h2 : ((round_half_even (x * 100) : ℤ) : ℝ) ≤ ((round_half_even (y * 100) : ℤ) : ℝ) :=
    Int.cast_le.mpr this
  linarith

/-! ## Data model (`backend/app/models.py`) -/

/-- `class AnalysisType(str, enum.Enum)` in `models.py`. -/
inductive AnalysisType where
  | NDVI | RVI | MOISTURE | FUSION | YIELD | BIOMASS | COMPLETE | FOREST
deriving DecidableEq

/-- The `.value` string of each `AnalysisType` member (already uppercase, so
`value.upper() == value`). -/
def AnalysisType.value : AnalysisType → String
  | .NDVI => "NDVI"
  | .RVI => "RVI"
  | .MOISTURE => "MOISTURE"
  | .FUSION => "FUSION"
  | .YIELD => "YIELD"
  | .BIOMASS => "BIOMASS"
  | .COMPLETE => "COMPLETE"
  | .FOREST => "FOREST"

/-- `class SiteType(str, enum.Enum)` in `models.py`. -/
inductive SiteType where
  | FIELD | FOREST
deriving DecidableEq

/-- `class AlertSeverity(str, enum.Enum)` in `models.py`. -/
inductive AlertSeverity where
  | LOW | MEDIUM | HIGH | CRITICAL
deriving DecidableEq

/-- `class AlertType(str, enum.Enum)` in `models.py`. -/
inductive AlertType where
  | VEGETATION_HEALTH | MOISTURE | FIRE_RISK | DEFORESTATION | DROUGHT_STRESS | PEST_DISEASE
deriving DecidableEq

/-- The classification-relevant core of the `Alert` model: its type and
severity. The `site_id`, free-text `title`/`message`, and bookkeeping fields
do not affect any claim and are not modelled. -/
structure Alert where
  alert_type : AlertType
  severity : AlertSeverity
deriving DecidableEq

/-! ## Alert Policy (`create_alert_from_analysis`, `routers/analysis.py` 22-141) -/

/-- The fields of the FOREST `analysis_data` dict read by
`create_alert_from_analysis` via `.get` with defaults; `none` models an
absent key. -/
structure ForestAlertData where
  fire_risk_level : Option String
  nbr : Option ℚ
  ndmi : Option ℚ
  deforestation_risk : Option String

/-- The FOREST-specific block of `create_alert_from_analysis`
(routers/analysis.py lines 87-134): fire-risk alert, then deforestation
alert (a later assignment overwrites an earlier one), then - only if no
alert was assigned yet - the forest drought-stress alert. `alert` is the
value of the `alert` variable on entry to the block. -/
def forest_alert_update (ad : ForestAlertData) (alert : Option Alert) : Option Alert :=
  let fire_risk := ad.fire_risk_level.getD "low"
  let ndmi := ad.ndmi.getD 0.3
  let alert1 : Option Alert :=
    if fire_risk = "critical" then some ⟨.FIRE_RISK, .CRITICAL⟩
    else if fire_risk = "high" then some ⟨.FIRE_RISK, .HIGH⟩
    else alert
  let deforestation_risk := ad.deforestation_risk.getD "low"
  let alert2 : Option Alert :=
    if deforestation_risk = "high" then some ⟨.DEFORESTATION, .CRITICAL⟩ else alert1
  if ndmi < 0.15 then
    (if alert2 = none then some ⟨.DROUGHT_STRESS, .HIGH⟩ else alert2)
  else alert2

/-- Faithful embedding of `create_alert_from_analysis` (routers/analysis.py
lines 22-141), preserving the source's exact `if`/`elif` chain: in the
source, the `elif mean_value < 0.2` drought branch is attached to the inner
`if analysis_type == AnalysisType.MOISTURE` test, so it is evaluated only
when `analysis_type` is COMPLETE. -/
def create_alert_from_analysis (analysis_type : AnalysisType) (mean_value : ℚ)
    (analysis_data : Option ForestAlertData) : Option Alert :=
  let alert : Option Alert :=
    if analysis_type = .NDVI ∨ analysis_type = .COMPLETE ∨ analysis_type = .FUSION then
      if mean_value < 0.2 then some ⟨.VEGETATION_HEALTH, .CRITICAL⟩
      else if mean_value < 0.3 then some ⟨.VEGETATION_HEALTH, .HIGH⟩
      else if mean_value < 0.4 then some ⟨.VEGETATION_HEALTH, .MEDIUM⟩
      else none
    else none
  if alert = none ∧ (analysis_type = .MOISTURE ∨ analysis_type = .COMPLETE) then
    if analysis_type = .MOISTURE then
      if mean_value < 0.1 then some ⟨.DROUGHT_STRESS, .CRITICAL⟩ else alert
    else if mean_value < 0.2 then some ⟨.DROUGHT_STRESS, .HIGH⟩
    else alert
  else if analysis_type = .FOREST ∧ analysis_data.isSome then
    forest_alert_update (analysis_data.getD ⟨none, none, none, none⟩) alert
  else alert

/-! ## Forest Health Scorer (`generate_forest_detailed_report`, services/analysis.py 315-320) -/

/-- The overall forest health score computed at the top of
`generate_forest_detailed_report` (services/analysis.py lines 315-320). -/
def overall_health_score (mean_value nbr ndmi : ℚ) : ℚ :=
  let ndvi_score := mean_value * 40
  let nbr_score := ((nbr + 1) / 2) * 30
  let ndmi_score := ((ndmi + 1) / 2) * 30
  min 100 (max 0 (ndvi_score + nbr_score + ndmi_score))

/-- `_get_forest_health_status` (services/analysis.py lines 411-422). -/
def get_forest_health_status (score : ℚ) : String :=
  if score ≥ 75 then "Excellent"
  else if score ≥ 60 then "Good"
  else if score ≥ 45 then "Moderate"
  else if score ≥ 30 then "Poor"
  else "Critical"

/-- Modelled from the spec's words (for the refinement claim C1):
`clamp(0,100, 0.4*100*ndvi + 0.3*100*(nbr+1)/2 + 0.3*100*(ndmi+1)/2)`. -/
def spec_forest_health_score (ndvi nbr ndmi : ℚ) : ℚ :=
  min 100 (max 0 (0.4 * 100 * ndvi + 0.3 * 100 * ((nbr + 1) / 2) + 0.3 * 100 * ((ndmi + 1) / 2)))

/-- Modelled from the spec's words (for claim C1): the status ladder
`>=75 Excellent, >=60 Good, >=45 Moderate, >=30 Poor, else Critical`. -/
def spec_forest_health_ladder (score : ℚ) : String :=
  if score ≥ 75 then "Excellent"
  else if score ≥ 60 then "Good"
  else if score ≥ 45 then "Moderate"
  else if score ≥ 30 then "Poor"
  else "Critical"

/-! ## Index Interpreter (`_get_health_status`, services/analysis.py 863-874) -/

/-- `_get_health_status` (services/analysis.py lines 863-874). -/
def get_health_status (ndvi : ℚ) : String :=
  if ndvi ≥ 0.7 then "Excellent"
  else if ndvi ≥ 0.5 then "Good"
  else if ndvi ≥ 0.4 then "Moderate"
  else if ndvi ≥ 0.3 then "Poor"
  else "Critical"

/-- The category order used by claim C8:
Critical < Poor < Moderate < Good < Excellent. -/
def health_category_rank (label : String) : ℕ :=
  if label = "Critical" then 0
  else if label = "Poor" then 1
  else if label = "Moderate" then 2
  else if label = "Good" then 3
  else 4

/-! ## Crop Yield Model (`predict_yield`, services/analysis.py 1328-1371) -/

/-- `np.mean` of a list of floats: the arithmetic mean, or NaN (modelled as
`none`) for an empty list. -/
def np_mean (l : List ℚ) : Option ℚ :=
  if l = [] then none else some (l.sum / l.length)

/-- `CROP_COEFFICIENTS` (services/analysis.py 17-28):
crop name to (base_yield, ndvi_factor) in t/ha. -/
def CROP_COEFFICIENTS (crop : String) : Option (ℚ × ℚ) :=
  if crop = "wheat" then some (2.5, 4.0)
  else if crop = "barley" then some (2.2, 3.8)
  else if crop = "olives" then some (3.0, 3.5)
  else if crop = "citrus" then some (25.0, 15.0)
  else if crop = "tomatoes" then some (60.0, 40.0)
  else if crop = "potatoes" then some (25.0, 18.0)
  else if crop = "corn" then some (8.0, 6.0)
  else if crop = "sunflower" then some (2.0, 2.5)
  else if crop = "grapes" then some (8.0, 5.0)
  else if crop = "almonds" then some (2.5, 2.0)
  else none

/-- Models Python `str.lower()` (characterwise; `String.toLower` itself does
not reduce in the kernel). -/
def py_lower (s : String) : String := ⟨s.data.map Char.toLower⟩

/-- The list comprehension `[v for v in ndvi_history if v is not None and v > 0]`
in `predict_yield` (services/analysis.py 1349). -/
def positive_history (ndvi_history : List (Option ℚ)) : List ℚ :=
  ndvi_history.filterMap (fun v =>
    match v with
    | none => none
    | some x => if x > 0 then some x else none)

/-- The `integrated_ndvi` computation in `predict_yield`
(services/analysis.py 1347-1351): the 0.5 fallback applies only when the
raw `ndvi_history` is empty, not when the filtered list is empty; `none`
models the NaN produced by `np.mean([])`. -/
def integrated_ndvi (ndvi_history : List (Option ℚ)) : Option ℚ :=
  if ndvi_history ≠ [] then np_mean (positive_history ndvi_history)
  else some 0.5

/-- The result record of `predict_yield`; the assessment date is not
modelled. -/
structure YieldPrediction where
  crop : String
  area_ha : ℚ
  yield_per_ha : Option ℚ
  total_yield_tonnes : Option ℚ
  confidence_percent : ℚ
deriving DecidableEq

/-- `predict_yield` (services/analysis.py 1328-1371) with the random jitter
`np.random.uniform(0.9, 1.1)` fixed at 1.0; `none` propagates the NaN
produced by `np.mean` on an empty filtered history. -/
def predict_yield (ndvi_history : List (Option ℚ)) (crop_type : Option String)
    (area_ha : ℚ) : YieldPrediction :=
  let crop_lower := match crop_type with
    | some c => py_lower c
    | none => "wheat"
  let coef := (CROP_COEFFICIENTS crop_lower).getD (2.5, 4.0)
  let integrated := integrated_ndvi ndvi_history
  let yield_per_ha := integrated.map (fun i => coef.1 + coef.2 * i)
  { crop := crop_type.getD "wheat"
    area_ha := py_round_2 area_ha
    yield_per_ha := yield_per_ha.map py_round_2
    total_yield_tonnes := yield_per_ha.map (fun y => py_round_2 (y * area_ha))
    confidence_percent := min 95 (50 + ndvi_history.length * 5) }

/-! ## Trend Engine (`get_forest_trends` / `get_field_trends`, routers/analysis.py) -/

/-- The inner `calc_pct` of `get_forest_trends` (routers/analysis.py
543-546): returns the number 0 - not null - when the previous value is 0. -/
def forest_calc_pct (curr prev : ℚ) : ℚ :=
  if prev = 0 then 0
  else py_round_1 (((curr - prev) / |prev|) * 100)

/-- The per-pair change field recorded by `get_forest_trends`
(routers/analysis.py 537-551): `None` until a previous analysis exists, then
always `calc_pct` of the pair. -/
def forest_change_pct (curr : ℚ) (prev : Option ℚ) : Option ℚ :=
  match prev with
  | none => none
  | some p => some (forest_calc_pct curr p)

/-- The inner `calc_pct` of `get_field_trends` (routers/analysis.py
697-700): returns `None` when either value is `None` or the previous value
is 0. -/
def field_calc_pct (curr prev : Option ℚ) : Option ℚ :=
  match curr, prev with
  | some c, some p =>
    if p = 0 then none else some (py_round_1 (((c - p) / |p|) * 100))
  | _, _ => none

/-! ## Baseline state machine (`run_analysis`, routers/analysis.py 144-328) -/

/-- The `Site` columns read or written by `run_analysis`. -/
structure SiteState where
  site_type : SiteType
  crop_type : Option String
  forest_type : Option String
  baseline_carbon_t_ha : Option ℚ
  baseline_canopy_cover : Option ℚ
  baseline_date : Option ℚ
deriving DecidableEq

/-- The entries of the acquisition layer's `analysis_data` dict that
`run_analysis` writes back into the `Site` row (`.get` defaults are applied
at the use sites; `none` models an absent key). -/
structure RunAnalysisData where
  mean : Option ℚ
  carbon_estimate_tonnes_ha : Option ℚ
  canopy_cover_percent : Option ℚ
  detected_type : Option String
  crop_detected_type : Option String
deriving DecidableEq

/-- One `run_analysis` request: the requested analysis type, the satellite
data handed back by the acquisition layer, and the current time
(`datetime.utcnow()`, modelled as a rational timestamp). -/
structure RunInput where
  analysis_type : AnalysisType
  analysis_data : RunAnalysisData
  now : ℚ
deriving DecidableEq

/-- The `effective_analysis_type` substitution (routers/analysis.py
183-185): a FOREST site requesting NDVI or COMPLETE is upgraded to FOREST. -/
def effective_analysis_type (site : SiteState) (requested : AnalysisType) : AnalysisType :=
  if site.site_type = .FOREST ∧ (requested = .NDVI ∨ requested = .COMPLETE) then .FOREST
  else requested

/-- The forest-type / crop-type auto-detection writes of `run_analysis`
(routers/analysis.py 187-229); Python string truthiness makes the empty
string count as no detection. -/
def detect_type_update (site : SiteState) (inp : RunInput) : SiteState :=
  let et := effective_analysis_type site inp.analysis_type
  if et = .FOREST then
    if site.site_type = .FOREST ∧ site.forest_type = none then
      match inp.analysis_data.detected_type with
      | some d =>
        if d ≠ "" ∧ d ≠ "unknown" then { site with forest_type := some d } else site
      | none => site
    else site
  else if et = .COMPLETE ∨ et = .NDVI then
    if site.site_type = .FIELD ∧ site.crop_type = none then
      match inp.analysis_data.crop_detected_type with
      | some d =>
        if d ≠ "" ∧ d ≠ "unknown" ∧ d ≠ "fallow" then { site with crop_type := some d }
        else site
      | none => site
    else site
  else site

/-- The `Site`-row mutations performed by one `run_analysis` call
(routers/analysis.py 181-271): type auto-detection, then the
set-baseline-only-if-null step after the forest report
(routers/analysis.py 266-271). -/
def run_analysis_site_update (site : SiteState) (inp : RunInput) : SiteState :=
  let et := effective_analysis_type site inp.analysis_type
  let s1 := detect_type_update site inp
  if et = .FOREST ∧ s1.baseline_carbon_t_ha = none then
    { s1 with
      baseline_carbon_t_ha := some (inp.analysis_data.carbon_estimate_tonnes_ha.getD 80)
      baseline_canopy_cover := some (inp.analysis_data.canopy_cover_percent.getD
        ((inp.analysis_data.mean.getD 0.5) * 100))
      baseline_date := some inp.now }
  else s1

/-- A concrete forest site with its baseline already set (used by the
witness of claim C7's theorem). -/
def sample_site : SiteState :=
  ⟨.FOREST, none, none, some 80, some 60, some 0⟩

/-- A concrete FOREST analysis run (used by the witness of claim C7's
theorem). -/
def sample_run : RunInput :=
  ⟨.FOREST, ⟨some 0.5, some 120, some 70, some "mixed", none⟩, 5⟩

/-! ## Report Generator: COMPLETE recommendations and monitoring schedule
(`generate_detailed_report`, services/analysis.py 156-291) -/

/-- The fields of a recommendation dict that the aggregation logic inspects:
`priority` (sort key) and `title` (dedup key), plus `category`; the
free-text `description` and `actions` entries affect no claim and are not
modelled. -/
structure Recommendation where
  priority : String
  category : String
  title : String
deriving DecidableEq

/-- `_generate_ndvi_recommendations` (services/analysis.py 1013-1069);
`crop_type` is accepted but never read by the source either. -/
def generate_ndvi_recommendations (mean min_val max_val : ℚ)
    (crop_type : Option String) : List Recommendation :=
  (if mean ≥ 0.6 then [⟨"low", "Maintenance", "Maintain Current Practices"⟩]
   else if mean ≥ 0.45 then [⟨"medium", "Optimization", "Consider Growth Enhancement"⟩]
   else [⟨"high", "Intervention", "Immediate Action Required"⟩])
  ++ (if max_val - min_val > 0.3 then
        [⟨"medium", "Precision Agriculture", "Address Field Variability"⟩]
      else [])

/-- `_generate_moisture_recommendations` (services/analysis.py 1224-1264). -/
def generate_moisture_recommendations (mean : ℚ) : List Recommendation :=
  if mean < 0.2 then [⟨"critical", "Irrigation", "Urgent Irrigation Required"⟩]
  else if mean < 0.35 then [⟨"high", "Irrigation", "Irrigation Recommended"⟩]
  else [⟨"low", "Monitoring", "Adequate Moisture"⟩]

/-- The `all_recommendations` list assembled in the COMPLETE branch of
`generate_detailed_report` (services/analysis.py 245-261): NDVI
recommendations, then moisture recommendations at the derived moisture value
`mean*0.8 + 0.1`, then the harvest-planning recommendation when
`mean > 0.5`. -/
def complete_all_recommendations (mean_value min_value max_value : ℚ)
    (crop_type : Option String) : List Recommendation :=
  generate_ndvi_recommendations mean_value min_value max_value crop_type
  ++ generate_moisture_recommendations (mean_value * 0.8 + 0.1)
  ++ (if mean_value > 0.5 then
        [⟨"low", "Harvest Planning", "Plan Optimal Harvest Window"⟩]
      else [])

/-- The `seen_titles` dedup loop of `generate_detailed_report`
(services/analysis.py 263-269): keep the first occurrence of each title. -/
def dedupe_by_title : List Recommendation → List String → List Recommendation
  | [], _ => []
  | r :: rest, seen =>
    if r.title ∈ seen then dedupe_by_title rest seen
    else r :: dedupe_by_title rest (r.title :: seen)

/-- `priority_order = {"high": 0, "medium": 1, "low": 2}` with
`.get(priority, 2)` (services/analysis.py 271-272): any other priority
(such as "critical") falls back to key 2. -/
def priority_order (p : String) : ℕ :=
  if p = "high" then 0
  else if p = "medium" then 1
  else if p = "low" then 2
  else 2

/-- Insertion step of the stable sort. -/
def insert_le {α : Type} (le : α → α → Bool) (a : α) : List α → List α
  | [] => [a]
  | b :: l => if le a b then a :: b :: l else b :: insert_le le a l

/-- Python's `sorted` is a stable sort by key; it is embedded as a stable
insertion sort (an earlier element precedes a later one with an equal
key). -/
def py_sorted {α : Type} (le : α → α → Bool) : List α → List α
  | [] => []
  | a :: l => insert_le le a (py_sorted le l)

/-- The final `recommendations` list of a COMPLETE report
(services/analysis.py 263-272): deduplicate by title keeping first
occurrences, then sort by `priority_order`. -/
def complete_recommendations (mean_value min_value max_value : ℚ)
    (crop_type : Option String) : List Recommendation :=
  py_sorted (fun a b => priority_order a.priority ≤ priority_order b.priority)
    (dedupe_by_title
      (complete_all_recommendations mean_value min_value max_value crop_type) [])

/-- One entry of the monitoring schedule. -/
structure ScheduleEntry where
  task : String
  recommended_interval : String
  urgency : String
deriving DecidableEq

/-- `_generate_monitoring_schedule` (services/analysis.py 1286-1326). -/
def generate_monitoring_schedule (mean : ℚ) (analysis_type : AnalysisType) :
    List ScheduleEntry :=
  let iu : String × String :=
    if mean < 0.4 then ("2-3 days", "High")
    else if mean < 0.55 then ("5-7 days", "Medium")
    else ("7-10 days", "Low")
  [⟨"Next " ++ analysis_type.value ++ " analysis", iu.1, iu.2⟩,
   ⟨"Field visual inspection", "Weekly", if mean < 0.5 then "Medium" else "Low"⟩,
   ⟨"Weather monitoring", "Daily", "High"⟩]
  ++ (if mean < 0.45 then [⟨"Soil moisture check", "Every 2-3 days", "High"⟩] else [])

/-! ## Biomass Model (`estimate_biomass`, services/analysis.py 1373-1409) -/

/-- The result record of `estimate_biomass`. -/
structure BiomassEstimate where
  mean_biomass_t_ha : ℝ
  min_biomass_t_ha : ℝ
  max_biomass_t_ha : ℝ
  total_carbon_t_ha : ℝ
  interpretation : String

/-- `_interpret_biomass` (services/analysis.py 1411-1421). -/
noncomputable def interpret_biomass (biomass : ℝ) : String :=
  if biomass < 2 then "Low biomass - early season or stressed vegetation"
  else if biomass < 5 then "Moderate biomass - normal growth"
  else if biomass < 10 then "High biomass - well-developed vegetation"
  else "Very high biomass - dense and mature vegetation"

/-- The pre-rounding `mean_biomass` of `estimate_biomass`
(services/analysis.py 1381-1396): the fractional powers force a real-valued
model; Python float truthiness (`ndvi if ndvi else 0.5`) makes a zero index
fall back to 0.5, and the absent `rvi` default is `None`. `variation`
stands for `np.random.uniform(0.85, 1.15)`. -/
noncomputable def mean_biomass_raw (ndvi : ℝ) (rvi : Option ℝ) (variation : ℝ) : ℝ :=
  let a : ℝ := 15.0
  let b : ℝ := 0.8
  let c : ℝ := 0.6
  let ndvi_safe := max 0.01 (min 1.0 (if ndvi = 0 then 0.5 else ndvi))
  let rvi_safe := max 0.01 (min 1.0 (match rvi with
    | none => 0.5
    | some r => if r = 0 then 0.5 else r))
  let biomass := a * rvi_safe ^ b * ndvi_safe ^ c
  biomass * variation

/-- `estimate_biomass` (services/analysis.py 1373-1409). -/
noncomputable def estimate_biomass (ndvi : ℝ) (rvi : Option ℝ) (variation : ℝ) :
    BiomassEstimate :=
  let mean_biomass := mean_biomass_raw ndvi rvi variation
  let min_biomass := mean_biomass * 0.7
  let max_biomass := mean_biomass * 1.4
  let carbon := mean_biomass * 0.47
  { mean_biomass_t_ha := py_round_2_real mean_biomass
    min_biomass_t_ha := py_round_2_real min_biomass
    max_biomass_t_ha := py_round_2_real max_biomass
    total_carbon_t_ha := py_round_2_real carbon
    interpretation := interpret_biomass mean_biomass }

/-! ## Claim theorems -/

/-- Claim C1: for every input `(ndvi, nbr, ndmi)`, the overall forest health
score equals `clamp(0,100, 40*ndvi + 30*(nbr+1)/2 + 30*(ndmi+1)/2)` as the
spec writes it, the health status label is obtained from that score by the
ladder `>=75 Excellent, >=60 Good, >=45 Moderate, >=30 Poor, else Critical`,
and in particular `ndvi=0.6, nbr=0.5, ndmi=0.5` yields score 69 and status
"Good". -/
theorem forest_health_score_matches_spec :
    (∀ ndvi nbr ndmi : ℚ,
      overall_health_score ndvi nbr ndmi = spec_forest_health_score ndvi nbr ndmi ∧
      get_forest_health_status (overall_health_score ndvi nbr ndmi) =
        spec_forest_health_ladder (overall_health_score ndvi nbr ndmi)) ∧
    overall_health_score 0.6 0.5 0.5 = 69 ∧
    get_forest_health_status (overall_health_score 0.6 0.5 0.5) = "Good" := by
  have hscore : overall_health_score 0.6 0.5 0.5 = 69 := by
    simp only [overall_health_score]
    rw [show (0.6 : ℚ) * 40 + ((0.5 + 1) / 2) * 30 + ((0.5 + 1) / 2) * 30 = 69 by norm_num]
    rw [max_eq_right (by norm_num : (0:ℚ) ≤ 69), min_eq_right (by norm_num : (69:ℚ) ≤ 100)]
  refine ⟨fun ndvi nbr ndmi => ⟨?_, rfl⟩, hscore, ?_⟩
  · simp only [overall_health_score, spec_forest_health_score]
    ring_nf
  · rw [hscore]
    norm_num [get_forest_health_status]

/-- Claim C2 (code bug): the spec's moisture/drought rule promises a HIGH
DROUGHT_STRESS alert for a MOISTURE analysis with mean in `[0.1, 0.2)`, but
the source's `elif mean_value < 0.2` branch is attached to the
`analysis_type == MOISTURE` test, so a MOISTURE analysis there produces no
alert at all: at the failing input `mean = 0.15` the policy returns `none`,
while `mean = 0.05` still returns the CRITICAL drought alert, and a MOISTURE
analysis can never produce a HIGH drought alert (the branch is dead code). -/
theorem moisture_high_drought_alert_unreachable :
    create_alert_from_analysis .MOISTURE 0.15 none = none ∧
    create_alert_from_analysis .MOISTURE 0.05 none =
      some ⟨.DROUGHT_STRESS, .CRITICAL⟩ ∧
    ∀ (mean_value : ℚ) (ad : Option ForestAlertData),
      create_alert_from_analysis .MOISTURE mean_value ad = none ∨
      create_alert_from_analysis .MOISTURE mean_value ad =
        some ⟨.DROUGHT_STRESS, .CRITICAL⟩ := by
  have hred : ∀ (mean_value : ℚ) (ad : Option ForestAlertData),
      create_alert_from_analysis .MOISTURE mean_value ad =
        (if mean_value < 0.1 then some ⟨.DROUGHT_STRESS, .CRITICAL⟩ else none) := by
    intro mean_value ad
    simp only [create_alert_from_analysis,
      show (AnalysisType.MOISTURE = AnalysisType.NDVI ∨
        AnalysisType.MOISTURE = AnalysisType.COMPLETE ∨
        AnalysisType.MOISTURE = AnalysisType.FUSION) = False by simp,
      show (AnalysisType.MOISTURE = AnalysisType.MOISTURE ∨
        AnalysisType.MOISTURE = AnalysisType.COMPLETE) = True by simp,
      show (AnalysisType.MOISTURE = AnalysisType.MOISTURE) = True by simp,
      if_false, if_true, and_true]
    simp
  refine ⟨?_, ?_, fun mean_value ad => ?_⟩
  · rw [hred]
    norm_num
  · rw [hred]
    norm_num
  · rw [hred]
    split_ifs <;> simp

/-- Claim C5: for NDVI, COMPLETE and FUSION analyses the policy creates at
most one alert, a VEGETATION_HEALTH alert whose severity is CRITICAL for
mean < 0.2, HIGH on `[0.2, 0.3)`, MEDIUM on `[0.3, 0.4)`, and no alert for
mean ≥ 0.4; in particular an NDVI analysis with mean 0.15 yields exactly one
CRITICAL VEGETATION_HEALTH alert and mean 0.5 yields no alert. -/
theorem vegetation_alert_rule :
    (∀ (analysis_type : AnalysisType) (mean_value : ℚ) (ad : Option ForestAlertData),
      analysis_type = .NDVI ∨ analysis_type = .COMPLETE ∨ analysis_type = .FUSION →
      create_alert_from_analysis analysis_type mean_value ad =
        (if mean_value < 0.2 then some ⟨.VEGETATION_HEALTH, .CRITICAL⟩
         else if mean_value < 0.3 then some ⟨.VEGETATION_HEALTH, .HIGH⟩
         else if mean_value < 0.4 then some ⟨.VEGETATION_HEALTH, .MEDIUM⟩
         else none)) ∧
    create_alert_from_analysis .NDVI 0.15 none = some ⟨.VEGETATION_HEALTH, .CRITICAL⟩ ∧
    create_alert_from_analysis .NDVI 0.5 none = none := by
  have hndvi : ∀ (mean_value : ℚ) (ad : Option ForestAlertData),
      create_alert_from_analysis .NDVI mean_value ad =
        (if mean_value < 0.2 then some ⟨.VEGETATION_HEALTH, .CRITICAL⟩
         else if mean_value < 0.3 then some ⟨.VEGETATION_HEALTH, .HIGH⟩
         else if mean_value < 0.4 then some ⟨.VEGETATION_HEALTH, .MEDIUM⟩
         else none) := by
    intro mean_value ad
    simp only [create_alert_from_analysis,
      show (AnalysisType.NDVI = AnalysisType.NDVI ∨
        AnalysisType.NDVI = AnalysisType.COMPLETE ∨
        AnalysisType.NDVI = AnalysisType.FUSION) = True by simp,
      show (AnalysisType.NDVI = AnalysisType.MOISTURE ∨
        AnalysisType.NDVI = AnalysisType.COMPLETE) = False by simp,
      show (AnalysisType.NDVI = AnalysisType.FOREST) = False by simp,
      true_or, or_true, if_true, and_false, false_and, if_false]
  refine ⟨fun analysis_type mean_value ad h => ?_, ?_, ?_⟩
  · rcases h with h | h | h <;> subst h
    · exact hndvi mean_value ad
    · simp only [create_alert_from_analysis,
        show (AnalysisType.COMPLETE = AnalysisType.NDVI ∨
          AnalysisType.COMPLETE = AnalysisType.COMPLETE ∨
          AnalysisType.COMPLETE = AnalysisType.FUSION) = True by simp,
        show (AnalysisType.COMPLETE = AnalysisType.MOISTURE ∨
          AnalysisType.COMPLETE = AnalysisType.COMPLETE) = True by simp,
        show (AnalysisType.COMPLETE = AnalysisType.MOISTURE) = False by simp,
        show (AnalysisType.COMPLETE = AnalysisType.FOREST) = False by simp,
        true_or, or_true, if_true, if_false, and_true, false_and]
      split_ifs <;> simp_all
    · simp only [create_alert_from_analysis,
        show (AnalysisType.FUSION = AnalysisType.NDVI ∨
          AnalysisType.FUSION = AnalysisType.COMPLETE ∨
          AnalysisType.FUSION = AnalysisType.FUSION) = True by simp,
        show (AnalysisType.FUSION = AnalysisType.MOISTURE ∨
          AnalysisType.FUSION = AnalysisType.COMPLETE) = False by simp,
        show (AnalysisType.FUSION = AnalysisType.FOREST) = False by simp,
        true_or, or_true, if_true, and_false, false_and, if_false]
  · rw [hndvi]
    norm_num
  · rw [hndvi]
    norm_num

/-- Witness for claim C5's theorem at the concrete input
`(NDVI, mean = 0.15)`. -/
theorem vegetation_alert_rule_witness :
    create_alert_from_analysis .NDVI 0.15 none =
      (if (0.15 : ℚ) < 0.2 then some ⟨.VEGETATION_HEALTH, .CRITICAL⟩
       else if (0.15 : ℚ) < 0.3 then some ⟨.VEGETATION_HEALTH, .HIGH⟩
       else if (0.15 : ℚ) < 0.4 then some ⟨.VEGETATION_HEALTH, .MEDIUM⟩
       else none) :=
  vegetation_alert_rule.1 .NDVI 0.15 none (Or.inl rfl)

/-- Claim C8: `_get_health_status` is total (always returns one of the five
labels) and monotonic non-decreasing with respect to the category order
Critical < Poor < Moderate < Good < Excellent. -/
theorem health_status_total_and_monotone :
    (∀ v : ℚ, get_health_status v = "Excellent" ∨ get_health_status v = "Good" ∨
      get_health_status v = "Moderate" ∨ get_health_status v = "Poor" ∨
      get_health_status v = "Critical") ∧
    (∀ v1 v2 : ℚ, v1 ≤ v2 →
      health_category_rank (get_health_status v1) ≤
        health_category_rank (get_health_status v2)) := by
  constructor
  · intro v
    unfold get_health_status
    split_ifs <;> simp
  · intro v1 v2 h
    unfold get_health_status
    split_ifs <;> first | decide | linarith

/-- Witness for claim C8's theorem at the concrete input `v1 = 0.2 ≤ v2 = 0.6`. -/
theorem health_status_monotone_witness :
    health_category_rank (get_health_status 0.2) ≤
      health_category_rank (get_health_status 0.6) :=
  health_status_total_and_monotone.2 0.2 0.6 (by norm_num)

/-- Claim C3 (code bug): the spec promises that when the filtered NDVI
history is empty the fallback average 0.5 is substituted, so yield is always
a finite number; but the source only applies the fallback when the raw
history is empty, and a non-empty history whose values are all non-positive
reaches `np.mean([])`, which is NaN (modelled as `none`): at the failing
input `ndvi_history = [-1.0]` the integrated NDVI and both yield figures are
NaN, while the empty history does take the 0.5 fallback. -/
theorem predict_yield_nan_on_nonpositive_history :
    integrated_ndvi [some (-1)] = none ∧
    (predict_yield [some (-1)] (some "wheat") 10).yield_per_ha = none ∧
    (predict_yield [some (-1)] (some "wheat") 10).total_yield_tonnes = none ∧
    integrated_ndvi [] = some 0.5 ∧
    (predict_yield [] (some "wheat") 10).yield_per_ha = some (py_round_2 (2.5 + 4.0 * 0.5)) := by
  have h1 : integrated_ndvi [some (-1)] = none := by
    simp only [integrated_ndvi, positive_history, np_mean, List.filterMap]
    norm_num
  have h2 : integrated_ndvi [] = some 0.5 := by
    simp [integrated_ndvi]
  have hwheat : CROP_COEFFICIENTS (py_lower "wheat") = some (2.5, 4.0) := by
    have : py_lower "wheat" = "wheat" := by decide
    rw [this]
    simp [CROP_COEFFICIENTS]
  refine ⟨h1, ?_, ?_, h2, ?_⟩ <;>
    simp [predict_yield, h1, h2, hwheat]

/-- Claim C4 (counterexample): the claim asserts the per-pair percentage
change is null whenever the previous value is 0 in both trend engines, but
in the forest trend the pair (prev = 0, curr = 0.5) records the number 0,
not null. -/
theorem forest_change_zero_prev_is_zero :
    forest_change_pct 0.5 (some 0) = some 0 := by
  simp [forest_change_pct, forest_calc_pct]

/-- Claim C4 (amended): the per-pair percentage change is
`(curr - prev)/|prev| * 100` rounded to 1 decimal in both trend engines; in
the field trend it is null when the previous or current value is absent or
the previous value is 0, while in the forest trend it is the number 0 when
the previous value is 0 (forest values are never absent thanks to the
extraction fallbacks). -/
theorem trend_pct_change_characterization :
    (∀ curr prev : ℚ, prev ≠ 0 →
      forest_change_pct curr (some prev) =
        some (py_round_1 (((curr - prev) / |prev|) * 100))) ∧
    (∀ curr : ℚ, forest_change_pct curr (some 0) = some 0 ∧
      forest_change_pct curr none = none) ∧
    (∀ c p : ℚ, p ≠ 0 →
      field_calc_pct (some c) (some p) =
        some (py_round_1 (((c - p) / |p|) * 100))) ∧
    (∀ c p : ℚ, field_calc_pct (some c) (some 0) = none ∧
      field_calc_pct none (some p) = none ∧
      field_calc_pct (some c) none = none) := by
  refine ⟨fun curr prev h => ?_, fun curr => ⟨?_, rfl⟩, fun c p h => ?_, fun c p => ⟨?_, rfl, rfl⟩⟩
  · simp [forest_change_pct, forest_calc_pct, h]
  · simp [forest_change_pct, forest_calc_pct]
  · simp [field_calc_pct, h]
  · simp [field_calc_pct]

/-- Witness for claim C4's amended theorem at the concrete pair
(curr = 3, prev = 2). -/
theorem trend_pct_change_witness :
    forest_change_pct 3 (some 2) = some (py_round_1 (((3 - 2) / |(2:ℚ)|) * 100)) :=
  trend_pct_change_characterization.1 3 2 (by norm_num)

/-- One `run_analysis` call never modifies the baseline fields of a site
whose `baseline_carbon_t_ha` is already non-null (helper for claim C7). -/
theorem run_analysis_preserves_baseline (site : SiteState) (inp : RunInput) (c : ℚ)
    (h : site.baseline_carbon_t_ha = some c) :
    (run_analysis_site_update site inp).baseline_carbon_t_ha = some c ∧
    (run_analysis_site_update site inp).baseline_canopy_cover = site.baseline_canopy_cover ∧
    (run_analysis_site_update site inp).baseline_date = site.baseline_date := by
  have hdet : (detect_type_update site inp).baseline_carbon_t_ha = site.baseline_carbon_t_ha ∧
      (detect_type_update site inp).baseline_canopy_cover = site.baseline_canopy_cover ∧
      (detect_type_update site inp).baseline_date = site.baseline_date := by
    refine ⟨?_, ?_, ?_⟩ <;>
      · simp only [detect_type_update]
        repeat' split
        all_goals rfl
  have hcond : ¬(effective_analysis_type site inp.analysis_type = .FOREST ∧
      (detect_type_update site inp).baseline_carbon_t_ha = none) := by
    rintro ⟨-, hnone⟩
    rw [hdet.1, h] at hnone
    cases hnone
  unfold run_analysis_site_update
  rw [if_neg hcond]
  exact ⟨hdet.1.trans h, hdet.2.1, hdet.2.2⟩

/-- Claim C7: once a site's `baseline_carbon_t_ha` is non-null, no sequence
of further `run_analysis` calls (of any type, in particular FOREST) changes
`baseline_carbon_t_ha`, `baseline_canopy_cover` or `baseline_date`; the
baseline fields are assigned only on a run where `baseline_carbon_t_ha` is
null. -/
theorem baseline_immutable_once_set (site : SiteState) (c : ℚ)
    (h : site.baseline_carbon_t_ha = some c) (runs : List RunInput) :
    (runs.foldl run_analysis_site_update site).baseline_carbon_t_ha = some c ∧
    (runs.foldl run_analysis_site_update site).baseline_canopy_cover = site.baseline_canopy_cover ∧
    (runs.foldl run_analysis_site_update site).baseline_date = site.baseline_date := by
  induction runs generalizing site with
  | nil => exact ⟨h, rfl, rfl⟩
  | cons r rs ih =>
    simp only [List.foldl_cons]
    have hstep := run_analysis_preserves_baseline site r c h
    have hrest := ih (run_analysis_site_update site r) hstep.1
    exact ⟨hrest.1, hrest.2.1.trans hstep.2.1, hrest.2.2.trans hstep.2.2⟩

/-- Witness for claim C7's theorem: a forest site whose baseline carbon is
already 80 keeps baseline 80 after two further FOREST runs. -/
theorem baseline_immutable_witness :
    sample_site.baseline_carbon_t_ha = some 80 ∧
    ([sample_run, sample_run].foldl run_analysis_site_update
      sample_site).baseline_carbon_t_ha = some 80 :=
  ⟨rfl, (baseline_immutable_once_set sample_site 80 rfl [sample_run, sample_run]).1⟩

/-- Claim C9: for every input, the COMPLETE report's recommendations list is
non-empty, its monitoring schedule is non-empty, and no two recommendations
share the same title. -/
theorem complete_report_lists_wellformed :
    ∀ (mean_value min_value max_value : ℚ) (crop_type : Option String),
      0 < (complete_recommendations mean_value min_value max_value crop_type).length ∧
      ((complete_recommendations mean_value min_value max_value crop_type).map
        Recommendation.title).Nodup ∧
      0 < (generate_monitoring_schedule mean_value .COMPLETE).length := by
  intro mean_value min_value max_value crop_type
  refine ⟨?_, ?_, ?_⟩
  · simp only [complete_recommendations, complete_all_recommendations,
      generate_ndvi_recommendations, generate_moisture_recommendations]
    split_ifs <;> decide
  · simp only [complete_recommendations, complete_all_recommendations,
      generate_ndvi_recommendations, generate_moisture_recommendations]
    split_ifs <;> decide
  · simp only [generate_monitoring_schedule]
    split_ifs <;> decide

/-- Claim C10: in a COMPLETE report with `mean_value < 0.125` (so the
derived moisture value `mean*0.8 + 0.1` is below 0.2), the recommendations
contain an entry with priority "critical" (the urgent-irrigation
recommendation), and since `priority_order` only ranks "high", "medium" and
"low", that "critical" entry is ordered after every "high"- and
"medium"-priority entry in the final sorted list. -/
theorem complete_report_critical_rec_last (mean_value min_value max_value : ℚ)
    (crop_type : Option String) (h : mean_value < 0.125) :
    (∃ r ∈ complete_recommendations mean_value min_value max_value crop_type,
      r.priority = "critical") ∧
    ((complete_recommendations mean_value min_value max_value crop_type).Pairwise
      (fun a b => a.priority = "critical" →
        b.priority = "low" ∨ b.priority = "critical")) := by
  have h1 : ¬(mean_value ≥ 0.6) := by norm_num at h ⊢; linarith
  have h2 : ¬(mean_value ≥ 0.45) := by norm_num at h ⊢; linarith
  have h3 : mean_value * 0.8 + 0.1 < 0.2 := by norm_num at h ⊢; linarith
  have h4 : ¬(mean_value > 0.5) := by norm_num at h ⊢; linarith
  simp only [complete_recommendations, complete_all_recommendations,
    generate_ndvi_recommendations, generate_moisture_recommendations,
    if_neg h1, if_neg h2, if_pos h3, if_neg h4]
  by_cases hv : max_value - min_value > 0.3
  · simp only [if_pos hv]
    refine ⟨?_, ?_⟩ <;> decide
  · simp only [if_neg hv]
    refine ⟨?_, ?_⟩ <;> decide

/-- Witness for claim C10's theorem at the concrete input
`mean = 0.1, min = 0.05, max = 0.2, crop_type = none`. -/
theorem complete_report_critical_rec_last_witness :
    ∃ r ∈ complete_recommendations 0.1 0.05 0.2 none, r.priority = "critical" :=
  (complete_report_critical_rec_last 0.1 0.05 0.2 none (by norm_num)).1

/-- Claim C6: with the jitter fixed at 1.0, for every valid input to
`estimate_biomass` the returned fields satisfy
`min_biomass_t_ha ≤ mean_biomass_t_ha ≤ max_biomass_t_ha`, where min and max
are the roundings of `mean*0.7` and `mean*1.4`, and `total_carbon_t_ha`
equals `round(mean_biomass * 0.47, 2)`. -/
theorem estimate_biomass_envelope (ndvi : ℝ) (rvi : Option ℝ) :
    (estimate_biomass ndvi rvi 1).min_biomass_t_ha ≤
      (estimate_biomass ndvi rvi 1).mean_biomass_t_ha ∧
    (estimate_biomass ndvi rvi 1).mean_biomass_t_ha ≤
      (estimate_biomass ndvi rvi 1).max_biomass_t_ha ∧
    (estimate_biomass ndvi rvi 1).min_biomass_t_ha =
      py_round_2_real (mean_biomass_raw ndvi rvi 1 * 0.7) ∧
    (estimate_biomass ndvi rvi 1).max_biomass_t_ha =
      py_round_2_real (mean_biomass_raw ndvi rvi 1 * 1.4) ∧
    (estimate_biomass ndvi rvi 1).total_carbon_t_ha =
      py_round_2_real (mean_biomass_raw ndvi rvi 1 * 0.47) := by
  have hpos : 0 < mean_biomass_raw ndvi rvi 1 := by
    simp only [mean_biomass_raw]
    have h1 : (0:ℝ) < max 0.01 (min 1.0 (if ndvi = 0 then 0.5 else ndvi)) :=
      lt_max_of_lt_left (by norm_num)
    have h2 : (0:ℝ) < max 0.01 (min 1.0 (match rvi with
        | none => 0.5
        | some r => if r = 0 then 0.5 else r)) :=
      lt_max_of_lt_left (by norm_num)
    have hA := Real.rpow_pos_of_pos h2 0.8
    have hB := Real.rpow_pos_of_pos h1 0.6
    have h15 : (0:ℝ) < 15.0 := by norm_num
    calc (0:ℝ) < 15.0 * _ ^ (0.8:ℝ) * _ ^ (0.6:ℝ) * 1 :=
          mul_pos (mul_pos (mul_pos h15 hA) hB) one_pos
      _ = _ := rfl
  refine ⟨?_, ?_, rfl, rfl, rfl⟩
  · exact py_round_2_real_mono (by nlinarith)
  · exact py_round_2_real_mono (by nlinarith)
